import Mathlib

/-!
Verification of the es-config-loader module (config_loader.py).

The development shallowly embeds the module's data and control flow:

* JSON-like documents (the stored survey configuration, the invocation event
  and the merged payload) are association lists of string keys and JVal
  values, with Python-dict semantics for lookup, assignment and the
  double-splat merge.
* The handler lambda_handler is embedded as a pure function of the
  environment mapping, the invocation event, an object-store oracle, the
  resolved account id and the drawn random suffix.  It returns the result
  together with the ordered list of external calls it performed (object-store
  read, caller-identity resolution, queue creation, workflow start), so that
  temporal claims about side effects can be stated.
* Fallible Python operations (KeyError, TypeError, schema validation errors)
  are modelled with Option / Except.
-/

namespace ConfigLoader

/-- JSON-like value, the payload type of configuration documents. -/
inductive JVal where
  | str : String → JVal
  | num : Int → JVal
  | arr : List JVal → JVal
  | obj : List (String × JVal) → JVal

/-- A Python dict with string keys, in insertion order. -/
abbrev Doc := List (String × JVal)

/-- Python dict read d[k] (first matching key; keys are unique in a dict). -/
def dlookup : Doc → String → Option JVal
  | [], _ => none
  | (k1, v1) :: rest, k => if k1 = k then some v1 else dlookup rest k

/-- Python dict assignment d[k] = v: replaces the value in place when the key
exists, appends the pair otherwise. -/
def dinsert : Doc → String → JVal → Doc
  | [], k, v => [(k, v)]
  | (k1, v1) :: rest, k, v =>
    if k1 = k then (k, v) :: rest else (k1, v1) :: dinsert rest k v

/-- Embedding of the double-splat merge used at line 89 of config_loader.py,
combined_input = \x7b**stored, **runtime\x7d: start from the stored document and
assign every runtime pair in order, so runtime values override stored ones. -/
def mergeDicts (a b : Doc) : Doc :=
  b.foldl (fun d kv => dinsert d kv.1 kv.2) a

/-- Helper for strContains: does the needle occur at some position of the
haystack character list? -/
def substrAux (needle : List Char) : List Char → Bool
  | [] => needle.isEmpty
  | c :: rest => needle.isPrefixOf (c :: rest) || substrAux needle rest

/-- Embedding of the Python membership test needle in hay on strings
(contiguous substring, the empty needle always matches). -/
def strContains (hay needle : String) : Bool :=
  substrAux needle.toList hay.toList

/-- Helper for strReplace: fuelled leftmost replace-all over character lists.
The fuel is instantiated with the input length, which makes the recursion
structural; one unit of fuel is spent per examined position. -/
def replaceAux (pat rep : List Char) : Nat → List Char → List Char
  | _, [] => []
  | 0, s => s
  | fuel + 1, c :: rest =>
    if pat.isPrefixOf (c :: rest) then
      rep ++ replaceAux pat rep fuel ((c :: rest).drop pat.length)
    else
      c :: replaceAux pat rep fuel rest

/-- Embedding of Python str.replace(pat, rep) for a non-empty pattern
(leftmost, non-overlapping, replace all occurrences). -/
def strReplace (s pat rep : String) : String :=
  if pat.isEmpty then s
  else String.mk (replaceAux pat.toList rep.toList s.toList.length s.toList)

mutual

/-- Embedding of json.dumps on a JSON value (default separators; string
escaping is not modelled, the documents of this module contain no
characters needing escapes). -/
def serializeJVal : JVal → String
  | .str s => "\"" ++ s ++ "\""
  | .num n => toString n
  | .arr xs => "[" ++ serializeArr xs ++ "]"
  | .obj kvs => "\x7b" ++ serializeObj kvs ++ "\x7d"

/-- Serialization of a JSON array body, comma separated. -/
def serializeArr : List JVal → String
  | [] => ""
  | [x] => serializeJVal x
  | x :: y :: rest => serializeJVal x ++ ", " ++ serializeArr (y :: rest)

/-- Serialization of a JSON object body, comma separated. -/
def serializeObj : List (String × JVal) → String
  | [] => ""
  | [(k, v)] => "\"" ++ k ++ "\": " ++ serializeJVal v
  | (k, v) :: y :: rest =>
    "\"" ++ k ++ "\": " ++ serializeJVal v ++ ", " ++ serializeObj (y :: rest)

end

/-- Embedding of the list branch of the path rewrite (lines 99-103): every
element of the list must be a string and is prefixed with the run-scoped
location; a non-string element is a Python TypeError, modelled as none. -/
def prefixList (loc : String) : List JVal → Option (List JVal)
  | [] => some []
  | .str s :: rest => (prefixList loc rest).map (fun r => JVal.str (loc ++ s) :: r)
  | _ :: _ => none

/-- Embedding of the per-entry path rewrite (lines 98-107): a list value has
every element prefixed, any other value is concatenated after the run-scoped
location, which in Python succeeds exactly when it is a string. -/
def prefixFileVal (loc : String) : JVal → Option JVal
  | .arr xs => (prefixList loc xs).map JVal.arr
  | .str s => some (.str (loc ++ s))
  | .num _ => none
  | .obj _ => none

/-- Embedding of the rewrite loop over combined_input["file_names"]
(lines 98-107): each entry keeps its key and position and has its value
rewritten by prefixFileVal. -/
def rewriteFileNames (loc : String) : Doc → Option Doc
  | [] => some []
  | (k, v) :: rest =>
    match prefixFileVal loc v, rewriteFileNames loc rest with
    | some v2, some rest2 => some ((k, v2) :: rest2)
    | _, _ => none

/-- The rewrite stage of lambda_handler acting on the whole merged document:
reads the file_names entry (KeyError / TypeError when absent or not an
object, modelled as none) and stores the rewritten mapping back under the
same key. -/
def rewriteStep (loc : String) (d : Doc) : Option Doc :=
  match dlookup d "file_names" with
  | some (.obj fns) =>
    (rewriteFileNames loc fns).map (fun fns2 => dinsert d "file_names" (.obj fns2))
  | _ => none

/-- Embedding of the scanning loop of set_checkpoint_start_file
(lines 197-207).  The accumulator last is the Python variable
last_file_name (initially the empty string); the returned string is the
Python variable file, which is the empty string when no key matches. -/
def checkpointScan (cid : String) : List String → String → String
  | [], _ => ""
  | f :: rest, last =>
    let last1 := if last = "" then f else last
    if strContains f cid then last1 else checkpointScan cid rest f

/-- Embedding of set_checkpoint_start_file (lines 186-212).  The checkpoint
file and id are strings (the id is validated as a string by RuntimeSchema and
a non-string id would raise a TypeError in the scan).  The function reads
config["file_names"] (none models the KeyError / iteration TypeError when it
is absent or not an object), scans the keys for the first one containing
checkpoint_id, and when checkpoint_file is non-empty assigns it to the key
recorded by the scan. -/
def set_checkpoint_start_file (checkpoint_file checkpoint_id : String) (config : Doc) :
    Option Doc :=
  match dlookup config "file_names" with
  | some (.obj fns) =>
    let file := checkpointScan checkpoint_id (fns.map Prod.fst) ""
    if checkpoint_file ≠ "" then
      some (dinsert config "file_names" (.obj (dinsert fns file (.str checkpoint_file))))
    else
      some config
  | _ => none

/-- Embedding of creating_step_arn (lines 141-153): substitutes the resolved
account id for the placeholder in the template address.  The sts
get_caller_identity call that resolves the account id is recorded as an
external call by the handler at the call site. -/
def creating_step_arn (arn_segment accountId : String) : String :=
  strReplace arn_segment "#\x7bAWS::AccountId\x7d" accountId

/-- Embedding of creating_survey_arn (lines 156-166): pure concatenation of
the arn segment, the survey prefix, the survey and the survey suffix. -/
def creating_survey_arn (arn_segment survey pre suf : String) : String :=
  arn_segment ++ pre ++ survey ++ suf

/-- One external call of the handler, in the order they are issued. -/
inductive ExtCall where
  | s3Read (bucket key : String)
  | getCallerIdentity
  | createQueue (qname : String)
  | startExecution (arn ename payload : String)
deriving DecidableEq

/-- The queue-creation request issued by create_queue (lines 169-183): the
queue name is the run id followed by -results.fifo. -/
def create_queue_request (run_id : String) : ExtCall :=
  ExtCall.createQueue (run_id ++ "-results.fifo")

/-- Recognizer for queue-creation calls in a trace. -/
def isCreateQueue : ExtCall → Bool
  | .createQueue _ => true
  | _ => false

/-- Recognizer for workflow-start calls in a trace. -/
def isStartExecution : ExtCall → Bool
  | .startExecution _ _ _ => true
  | _ => false

/-- The process environment as seen through os.environ: each configuration
field either absent or a string (environment values are always strings). -/
structure Environ where
  bucket_name : Option String
  config_suffix : Option String
  file_path : Option String
  payload_reference_name : Option String
  step_function_arn : Option String
  survey_arn_pre : Option String
  survey_arn_suf : Option String

/-- The validated environment record produced by EnvironmentSchema (all
seven required fields present).  The fields survey_arn_pre and
survey_arn_suf embed the source fields survey_arn_prefix and
survey_arn_suffix. -/
structure EnvVars where
  bucket_name : String
  config_suffix : String
  file_path : String
  payload_reference_name : String
  step_function_arn : String
  survey_arn_pre : String
  survey_arn_suf : String

/-- Embedding of EnvironmentSchema().load(os.environ) (lines 12-26): all
seven required string fields must be present, otherwise handle_error raises
a ValueError carrying the validation message. -/
def validateEnv (e : Environ) : Except String EnvVars :=
  match e.bucket_name, e.config_suffix, e.file_path, e.payload_reference_name,
      e.step_function_arn, e.survey_arn_pre, e.survey_arn_suf with
  | some b, some c, some f, some p, some s, some pr, some su =>
    .ok ⟨b, c, f, p, s, pr, su⟩
  | _, _, _, _, _, _, _ => .error "Error validating environment params"

/-- Does this optional value hold a JSON string? -/
def isStrVal : Option JVal → Bool
  | some (.str _) => true
  | _ => false

/-- Embedding of RuntimeSchema().load(event) (lines 29-41): checkpoint,
period, run_id and survey are required strings, checkpoint_file is an
optional string, and unknown fields are kept (Meta.unknown = INCLUDE), so
the validated mapping has the same content as the event. -/
def validateRuntime (event : Doc) : Bool :=
  isStrVal (dlookup event "checkpoint") && isStrVal (dlookup event "period") &&
  isStrVal (dlookup event "run_id") && isStrVal (dlookup event "survey") &&
  (match dlookup event "checkpoint_file" with
   | none => true
   | some (.str _) => true
   | some _ => false)

/-- The data handed to start_execution on the success path: the assembled
payload document, the execution name and the constructed state machine arn.
The source additionally extracts an execution id from the response of the
workflow engine; no claim concerns it, so the response is not modelled. -/
structure HandlerOutput where
  payloadDoc : Doc
  execName : String
  arn : String

/-- Embedding of lambda_handler (lines 44-138).  Inputs: the process
environment, the invocation event, the object store as an oracle from bucket
and key to the parsed stored document (json.loads composed with
read_from_s3; none models a fetch or parse failure), the account id returned
by the sts collaborator, and the value drawn by random.randint for the
execution-name suffix.  Returns the outcome together with the ordered trace
of external calls issued before returning.  Error strings name the Python
exception or validation failure surfaced through LambdaFailure. -/
def lambda_handler (env : Environ) (event : Doc)
    (s3 : String → String → Option Doc) (accountId : String) (rand : Nat) :
    Except String HandlerOutput × List ExtCall :=
  match dlookup event "run_id" with
  | none => (.error "KeyError: run_id", [])
  | some runIdV =>
    match validateEnv env with
    | .error e => (.error e, [])
    | .ok ev =>
      if validateRuntime event then
        match runIdV with
        | .str seed =>
          match dlookup event ev.payload_reference_name with
          | some (.str survey) =>
            -- folder_id captures the raw run id before it is namespaced.
            let folder_id := seed
            let run_id := survey ++ "-" ++ seed
            let runtime_variables := dinsert event "run_id" (.str run_id)
            let config_file_name := ev.file_path ++ survey ++ ev.config_suffix
            match s3 ev.bucket_name config_file_name with
            | none => (.error "StorageError",
                [ExtCall.s3Read ev.bucket_name config_file_name])
            | some stored =>
              let combined0 := mergeDicts stored runtime_variables
              match dlookup combined0 "location" with
              | some (.str location) =>
                let full_location := location ++ "/" ++ folder_id ++ "/"
                let combined1 := dinsert combined0 "final_output_location"
                  (.str (location ++ "/0-latest/disclosure_out"))
                let combined2 := dinsert combined1 "location" (.str full_location)
                match rewriteStep full_location combined2 with
                | none => (.error "TypeError: file_names",
                    [ExtCall.s3Read ev.bucket_name config_file_name])
                | some combined3 =>
                  let constructed_arn := creating_survey_arn
                    (creating_step_arn ev.step_function_arn accountId)
                    survey ev.survey_arn_pre ev.survey_arn_suf
                  let afterCheckpoint : Option Doc :=
                    match dlookup combined3 "checkpoint_file" with
                    | none => some combined3
                    | some (.str cf) =>
                      match dlookup combined3 "checkpoint" with
                      | some (.str cid) => set_checkpoint_start_file cf cid combined3
                      | _ => none
                    | some _ => none
                  match afterCheckpoint with
                  | none => (.error "TypeError: checkpoint",
                      [ExtCall.s3Read ev.bucket_name config_file_name,
                       ExtCall.getCallerIdentity])
                  | some finalDoc =>
                    let ename := run_id ++ "-" ++ toString rand
                    (.ok ⟨finalDoc, ename, constructed_arn⟩,
                      [ExtCall.s3Read ev.bucket_name config_file_name,
                       ExtCall.getCallerIdentity,
                       ExtCall.startExecution constructed_arn ename
                         (serializeJVal (.obj finalDoc))])
              | _ => (.error "KeyError: location",
                  [ExtCall.s3Read ev.bucket_name config_file_name])
          | _ => (.error "KeyError: payload_reference_name", [])
        | _ => (.error "TypeError: run_id", [])
      else (.error "Error validating runtime params", [])

/-- Is this handler result a success? -/
def exceptIsOk : Except String HandlerOutput → Bool
  | .ok _ => true
  | .error _ => false

/-- The payload document of a handler run, or the empty document on
failure. -/
def handlerDoc (r : Except String HandlerOutput × List ExtCall) : Doc :=
  match r.1 with
  | .ok o => o.payloadDoc
  | .error _ => []

/-- Look up one entry of the file_names table of a document. -/
def fileNameEntry (d : Doc) (k : String) : Option JVal :=
  match dlookup d "file_names" with
  | some (.obj fns) => dlookup fns k
  | _ => none

/-- The environment of the repository's happy-path test: a mock bucket, the
_config.json suffix, the configs/ path, payload reference survey, a mock
step function template and the ES- / -Results survey arn affixes. -/
def mockEnv : Environ :=
  ⟨some "mock-bucket", some "_config.json", some "configs/", some "survey",
   some "mock-arn", some "ES-", some "-Results"⟩

/-- The invocation of the end-to-end scenario: survey BMISG, period 201809,
run id seed 01021 and checkpoint 1 (period and checkpoint are carried as
strings, the declared type of the RuntimeSchema fields). -/
def mockEvent : Doc :=
  [("survey", .str "BMISG"), ("period", .str "201809"),
   ("run_id", .str "01021"), ("checkpoint", .str "1")]

/-- The stored configuration document of the end-to-end scenario: location
base and a single ingest file f.csv. -/
def mockStored : Doc :=
  [("location", .str "base"), ("file_names", .obj [("ingest", .str "f.csv")])]

/-- Object-store oracle returning the stored document for the key the
handler is expected to compute, and failing on every other key. -/
def mockS3 : String → String → Option Doc := fun b k =>
  if b = "mock-bucket" then
    if k = "configs/BMISG_config.json" then some mockStored else none
  else none

/-- The payload document the handler assembles in the end-to-end scenario
(checked against the handler by the theorems below). -/
def mockPayload : Doc :=
  [("location", .str "base/01021/"),
   ("file_names", .obj [("ingest", .str "base/01021/f.csv")]),
   ("survey", .str "BMISG"), ("period", .str "201809"),
   ("run_id", .str "BMISG-01021"), ("checkpoint", .str "1"),
   ("final_output_location", .str "base/0-latest/disclosure_out")]

/-! Basic dictionary lemmas. -/

/-- Assignment followed by lookup of the same key yields the assigned
value. -/
theorem dlookup_dinsert_self (d : Doc) (k : String) (v : JVal) :
    dlookup (dinsert d k v) k = some v := by
  induction d with
  | nil => simp [dinsert, dlookup]
  | cons p rest ih =>
    obtain ⟨k1, v1⟩ := p
    by_cases h : k1 = k
    · subst h; simp [dinsert, dlookup]
    · simp [dinsert, dlookup, h, ih]

/-- Assignment at one key leaves lookups of every other key unchanged. -/
theorem dlookup_dinsert_ne (d : Doc) (k1 k : String) (v : JVal) (h : k1 ≠ k) :
    dlookup (dinsert d k1 v) k = dlookup d k := by
  induction d with
  | nil => simp [dinsert, dlookup, h]
  | cons p rest ih =>
    obtain ⟨k2, v2⟩ := p
    by_cases h2 : k2 = k1
    · subst h2; simp [dinsert, dlookup, h]
    · simp [dinsert, dlookup, h2, ih]

/-- A key that is not among the keys of a document looks up to none. -/
theorem dlookup_eq_none_of_not_mem (d : Doc) (k : String)
    (h : k ∉ d.map Prod.fst) : dlookup d k = none := by
  induction d with
  | nil => rfl
  | cons p rest ih =>
    obtain ⟨k1, v1⟩ := p
    simp only [List.map_cons, List.mem_cons] at h
    push_neg at h
    simp [dlookup, Ne.symm h.1, ih h.2]

/-- Lookup in a dict merge: a key found in the overriding dict takes its
value there, all other keys fall through to the base dict.  The overriding
dict has unique keys, the invariant of every Python dict. -/
theorem mergeDicts_lookup (a b : Doc) (k : String)
    (hnd : (b.map Prod.fst).Nodup) :
    dlookup (mergeDicts a b) k =
      match dlookup b k with
      | some v => some v
      | none => dlookup a k := by
  induction b generalizing a with
  | nil => simp [mergeDicts, dlookup]
  | cons p t ih =>
    obtain ⟨k1, v1⟩ := p
    simp only [List.map_cons, List.nodup_cons] at hnd
    have hstep : mergeDicts a ((k1, v1) :: t) = mergeDicts (dinsert a k1 v1) t := rfl
    rw [hstep, ih _ hnd.2]
    by_cases hk : k1 = k
    · subst hk
      have ht : dlookup t k1 = none :=
        dlookup_eq_none_of_not_mem t k1 hnd.1
      simp [dlookup, ht, dlookup_dinsert_self]
    · simp [dlookup, hk, dlookup_dinsert_ne _ _ _ _ hk]

/-- Assignment to a key that occurs once replaces exactly that entry in
place, leaving every other entry of the dict untouched. -/
theorem dinsert_replaces_unique_key (pre : Doc) (k : String) (v v2 : JVal)
    (rest : Doc) (h : k ∉ pre.map Prod.fst) :
    dinsert (pre ++ (k, v) :: rest) k v2 = pre ++ (k, v2) :: rest := by
  induction pre with
  | nil => simp [dinsert]
  | cons p t ih =>
    obtain ⟨k1, v1⟩ := p
    simp only [List.map_cons, List.mem_cons] at h
    push_neg at h
    simp [dinsert, Ne.symm h.1, ih h.2]

/-- The scanning loop of set_checkpoint_start_file returns the key
immediately preceding the first matching key, provided the match is not in
first position: the keys before the predecessor do not match, the
predecessor is non-empty (the empty string is the loop's sentinel) and does
not match, and the next key matches. -/
theorem checkpointScan_prefix_no_match (ks : List String)
    (cid kprev kmatch : String) (rest : List String)
    (hks : ∀ k ∈ ks, strContains k cid = false)
    (hprev : strContains kprev cid = false)
    (hmatch : strContains kmatch cid = true)
    (hne : kprev ≠ "") :
    ∀ last, checkpointScan cid (ks ++ kprev :: kmatch :: rest) last = kprev := by
  induction ks with
  | nil =>
    intro last
    simp [checkpointScan, hprev, hmatch, hne]
  | cons k t ih =>
    intro last
    have hk : strContains k cid = false := hks k (by simp)
    have ht : ∀ x ∈ t, strContains x cid = false := fun x hx => hks x (by simp [hx])
    simp only [List.cons_append, checkpointScan, hk]
    simpa using ih ht k

/-- C2: in the merged document, every key present in both the stored
document and the invocation parameters takes the invocation's value, and a
key present in only one input keeps that input's value.  The invocation
mapping has unique keys, as every Python dict does. -/
theorem merge_precedence (a b : Doc) (k : String)
    (hnd : (b.map Prod.fst).Nodup) :
    (∀ v, dlookup b k = some v → dlookup (mergeDicts a b) k = some v) ∧
    (dlookup b k = none → dlookup (mergeDicts a b) k = dlookup a k) := by
  constructor
  · intro v hv
    rw [mergeDicts_lookup a b k hnd, hv]
  · intro hnone
    rw [mergeDicts_lookup a b k hnd, hnone]

/-- Witness for merge_precedence: the period key present in both inputs
takes the invocation value 201809, and the survey key present only in the
stored document keeps its stored value. -/
theorem merge_precedence_witness :
    dlookup (mergeDicts [("period", JVal.str "X")]
      [("period", JVal.str "201809")]) "period" = some (JVal.str "201809") ∧
    dlookup (mergeDicts [("survey", JVal.str "B")]
      [("period", JVal.str "201809")]) "survey" = some (JVal.str "B") :=
  ⟨(merge_precedence _ _ _ (by decide)).1 _ rfl,
   (merge_precedence _ _ _ (by decide)).2 rfl⟩

/-- C9: creating_survey_arn is the pure, order-sensitive concatenation of
the arn segment, the prefix, the survey and the suffix, and in particular
maps ("arn:", "BMISG", "ES-", "-Results") to "arn:ES-BMISG-Results". -/
theorem creating_survey_arn_concatenation :
    (∀ a s p f : String, creating_survey_arn a s p f = a ++ p ++ s ++ f) ∧
    creating_survey_arn "arn:" "BMISG" "ES-" "-Results" = "arn:ES-BMISG-Results" :=
  ⟨fun _ _ _ _ => rfl, rfl⟩

/-- C10: when the first key of a non-empty file_names table contains
checkpoint_id as a substring, set_checkpoint_start_file with a non-empty
checkpoint_file overwrites that first key's own entry (the matching stage
itself, not a stage preceding it), leaving the remaining entries as they
were. -/
theorem checkpoint_first_key_self_substituted (config : Doc) (k0 : String)
    (v0 : JVal) (rest : Doc) (cf cid : String)
    (hl : dlookup config "file_names" = some (.obj ((k0, v0) :: rest)))
    (hc : strContains k0 cid = true)
    (hcf : cf ≠ "") :
    set_checkpoint_start_file cf cid config =
      some (dinsert config "file_names" (.obj ((k0, JVal.str cf) :: rest))) := by
  unfold set_checkpoint_start_file
  rw [hl]
  simp [checkpointScan, hc, hcf, dinsert]

/-- Witness for checkpoint_first_key_self_substituted: checkpoint id 1
matches the first key stage_1, whose entry is overwritten with chk.csv. -/
theorem checkpoint_first_key_self_substituted_witness :
    set_checkpoint_start_file "chk.csv" "1"
      [("file_names", JVal.obj [("stage_1", JVal.str "a.csv"),
        ("stage_2", JVal.str "b.csv")])]
      = some [("file_names", JVal.obj [("stage_1", JVal.str "chk.csv"),
          ("stage_2", JVal.str "b.csv")])] :=
  checkpoint_first_key_self_substituted _ _ _ _ _ _ rfl rfl (by decide)

/-- C4 counterexample: with file_names ingest_1 mapped to a and enrich_2
mapped to b, checkpoint id 1 matches the first key ingest_1, and the code
overwrites the entry of ingest_1 itself, the matching stage, with X; the
claim as stated requires the overwritten entry to be the stage immediately
preceding the first matching key and every other entry, the matching key's
included, to stay byte-identical, yet here no stage precedes the match and
the matching key's value changed from a to X. -/
theorem checkpoint_substitution_counterexample :
    set_checkpoint_start_file "X" "1"
      [("file_names", JVal.obj [("ingest_1", JVal.str "a"),
        ("enrich_2", JVal.str "b")])]
      = some [("file_names", JVal.obj [("ingest_1", JVal.str "X"),
          ("enrich_2", JVal.str "b")])] ∧
    strContains "ingest_1" "1" = true ∧
    strContains "enrich_2" "1" = false ∧
    ((("a" : String) == "X") = false) :=
  ⟨rfl, rfl, rfl, rfl⟩

/-- C4 amended: for every config with a non-empty checkpoint_file, when the
first file_names key containing checkpoint_id is not the table's first key,
the substitution changes exactly one entry — the key immediately preceding
the first match — replacing its value wholesale with checkpoint_file (no
path prefixing), and leaves every other entry byte-identical; when the
first key itself matches, the code instead overwrites that key (see
checkpoint_first_key_self_substituted). -/
theorem checkpoint_substitution_amended (config pre post : Doc)
    (kprev kmatch cf cid : String) (vprev vmatch : JVal)
    (hl : dlookup config "file_names"
      = some (.obj (pre ++ (kprev, vprev) :: (kmatch, vmatch) :: post)))
    (hcf : cf ≠ "")
    (hpre : ∀ k ∈ pre.map Prod.fst, strContains k cid = false)
    (hprev : strContains kprev cid = false)
    (hmatch : strContains kmatch cid = true)
    (hne : kprev ≠ "")
    (hnm : kprev ∉ pre.map Prod.fst) :
    set_checkpoint_start_file cf cid config
      = some (dinsert config "file_names"
          (.obj (pre ++ (kprev, JVal.str cf) :: (kmatch, vmatch) :: post))) := by
  unfold set_checkpoint_start_file
  rw [hl]
  have hmap : (pre ++ (kprev, vprev) :: (kmatch, vmatch) :: post).map Prod.fst
      = pre.map Prod.fst ++ kprev :: kmatch :: post.map Prod.fst := by simp
  simp only [hmap,
    checkpointScan_prefix_no_match (pre.map Prod.fst) cid kprev kmatch
      (post.map Prod.fst) hpre hprev hmatch hne ""]
  rw [if_pos hcf,
    dinsert_replaces_unique_key pre kprev vprev (JVal.str cf)
      ((kmatch, vmatch) :: post) hnm]

/-- Witness for checkpoint_substitution_amended: checkpoint id 2 first
matches key c_2, so the preceding entry b_1 is replaced with X and the
entries a_0, c_2 and d_3 are untouched. -/
theorem checkpoint_substitution_amended_witness :
    set_checkpoint_start_file "X" "2"
      [("file_names", JVal.obj [("a_0", JVal.str "va"), ("b_1", JVal.str "vb"),
        ("c_2", JVal.str "vc"), ("d_3", JVal.str "vd")])]
      = some (dinsert
          [("file_names", JVal.obj [("a_0", JVal.str "va"), ("b_1", JVal.str "vb"),
            ("c_2", JVal.str "vc"), ("d_3", JVal.str "vd")])]
          "file_names"
          (JVal.obj [("a_0", JVal.str "va"), ("b_1", JVal.str "X"),
            ("c_2", JVal.str "vc"), ("d_3", JVal.str "vd")])) :=
  checkpoint_substitution_amended _ [("a_0", JVal.str "va")]
    [("d_3", JVal.str "vd")] "b_1" "c_2" "X" "2" (JVal.str "vb") (JVal.str "vc")
    rfl (by decide) (by decide) rfl rfl (by decide) (by decide)

/-- C5: the claim states that an unmatched checkpoint_id leaves the document
unmodified, and that is plainly the intent of the code (its docstring only
redirects the input file, and the module's spec calls this case a silent
no-op); the code instead executes config["file_names"][''] = checkpoint_file
with the loop's sentinel '' as key, adding a spurious empty-string entry.
First conjunct: the failing input, checkpoint id z matching no key.  Second
and third conjuncts: the repository's own test input (checkpoint file
checkpointfile0, id 0, empty file_names) ends up with an empty-string key
and without the input_file entry the test asserts, so the code also
contradicts its own test suite. -/
theorem checkpoint_no_match_divergence :
    set_checkpoint_start_file "X" "z"
      [("file_names", JVal.obj [("ingest", JVal.str "f.csv")])]
      = some [("file_names", JVal.obj [("ingest", JVal.str "f.csv"),
          ("", JVal.str "X")])] ∧
    set_checkpoint_start_file "checkpointfile0" "0" [("file_names", JVal.obj [])]
      = some [("file_names", JVal.obj [("", JVal.str "checkpointfile0")])] ∧
    fileNameEntry [("file_names", JVal.obj [("", JVal.str "checkpointfile0")])]
      "input_file" = none :=
  ⟨rfl, rfl, rfl⟩

/-- Prefixing a list of string elements succeeds and prefixes every element
in order. -/
theorem prefixList_strs (loc : String) (xs : List String) :
    prefixList loc (xs.map JVal.str) = some (xs.map fun s => JVal.str (loc ++ s)) := by
  induction xs with
  | nil => rfl
  | cons x t ih => simp [prefixList, ih]

/-- C1: the path rewrite is total over file_names — a single-string value
becomes run_scope followed by the value, a list value gets run_scope
prepended to every element with order preserved, the rewritten table pairs
each original entry with its rewritten value key by key and position by
position, and the rewrite stage changes no key of the merged document other
than file_names. -/
theorem file_names_rewrite_total (loc : String) :
    (∀ s, prefixFileVal loc (JVal.str s) = some (JVal.str (loc ++ s))) ∧
    (∀ xs : List String,
      prefixFileVal loc (JVal.arr (xs.map JVal.str))
        = some (JVal.arr (xs.map fun s => JVal.str (loc ++ s)))) ∧
    (∀ fns fns2, rewriteFileNames loc fns = some fns2 →
      List.Forall₂ (fun p q => p.1 = q.1 ∧ prefixFileVal loc p.2 = some q.2)
        fns fns2) ∧
    (∀ d d2, rewriteStep loc d = some d2 →
      ∀ k, k ≠ "file_names" → dlookup d2 k = dlookup d k) := by
  refine ⟨fun s => rfl, fun xs => by simp [prefixFileVal, prefixList_strs], ?_, ?_⟩
  · intro fns
    induction fns with
    | nil =>
      intro fns2 h
      simp only [rewriteFileNames, Option.some.injEq] at h
      subst h
      exact List.Forall₂.nil
    | cons p t ih =>
      intro fns2 h
      obtain ⟨k, v⟩ := p
      unfold rewriteFileNames at h
      split at h
      · rename_i v2 t2 hv hr
        injection h with h
        subst h
        exact List.Forall₂.cons ⟨rfl, hv⟩ (ih t2 hr)
      · simp at h
  · intro d d2 h k hk
    unfold rewriteStep at h
    split at h
    · rename_i fns hfns
      rw [Option.map_eq_some'] at h
      obtain ⟨fns2, hr, hd2⟩ := h
      subst hd2
      exact dlookup_dinsert_ne d "file_names" k (JVal.obj fns2) (Ne.symm hk)
    · simp at h

/-- Witness for file_names_rewrite_total at the run scope L/: a string entry,
a list entry, a two-entry table and a document with an unrelated key. -/
theorem file_names_rewrite_total_witness :
    prefixFileVal "L/" (JVal.str "x") = some (JVal.str "L/x") ∧
    prefixFileVal "L/" (JVal.arr [JVal.str "y"]) = some (JVal.arr [JVal.str "L/y"]) ∧
    List.Forall₂ (fun p q => p.1 = q.1 ∧ prefixFileVal "L/" p.2 = some q.2)
      [("a", JVal.str "x"), ("b", JVal.arr [JVal.str "y", JVal.str "z"])]
      [("a", JVal.str "L/x"), ("b", JVal.arr [JVal.str "L/y", JVal.str "L/z"])] ∧
    dlookup [("file_names", JVal.obj [("a", JVal.str "L/x")]),
      ("other", JVal.str "w")] "other"
      = dlookup [("file_names", JVal.obj [("a", JVal.str "x")]),
          ("other", JVal.str "w")] "other" :=
  ⟨(file_names_rewrite_total "L/").1 "x",
   (file_names_rewrite_total "L/").2.1 ["y"],
   (file_names_rewrite_total "L/").2.2.1 _ _ rfl,
   (file_names_rewrite_total "L/").2.2.2
     [("file_names", JVal.obj [("a", JVal.str "x")]), ("other", JVal.str "w")]
     [("file_names", JVal.obj [("a", JVal.str "L/x")]), ("other", JVal.str "w")]
     rfl "other" (by decide)⟩

/-- Environment validation succeeds only when every required field is
present, and then returns exactly those fields. -/
theorem validateEnv_ok_fields (env : Environ) (ev : EnvVars)
    (h : validateEnv env = .ok ev) :
    env.bucket_name = some ev.bucket_name ∧
    env.config_suffix = some ev.config_suffix ∧
    env.file_path = some ev.file_path ∧
    env.payload_reference_name = some ev.payload_reference_name ∧
    env.step_function_arn = some ev.step_function_arn ∧
    env.survey_arn_pre = some ev.survey_arn_pre ∧
    env.survey_arn_suf = some ev.survey_arn_suf := by
  unfold validateEnv at h
  split at h
  · rename_i b c f p s pr su hb hc hf hp hs hpr hsu
    injection h with h
    subst h
    exact ⟨hb, hc, hf, hp, hs, hpr, hsu⟩
  · simp at h

/-- Environment validation fails only with the validation message. -/
theorem validateEnv_error_msg (env : Environ) (s : String)
    (h : validateEnv env = .error s) :
    s = "Error validating environment params" := by
  unfold validateEnv at h
  split at h
  · simp at h
  · injection h with h
    exact h.symm

/-- C8: when a required environment field is absent, the handler performs no
external call at all — no storage read, no queue creation, no workflow
start — and, whenever the event carries a run id so that execution reaches
parameter validation, it fails with the environment validation error. -/
theorem env_validation_failure_blocks_side_effects (env : Environ)
    (event : Doc) (s3 : String → String → Option Doc) (accountId : String)
    (rand : Nat)
    (h : env.bucket_name = none ∨ env.config_suffix = none ∨
      env.file_path = none ∨ env.payload_reference_name = none ∨
      env.step_function_arn = none ∨ env.survey_arn_pre = none ∨
      env.survey_arn_suf = none) :
    (lambda_handler env event s3 accountId rand).2 = [] ∧
    (∀ v, dlookup event "run_id" = some v →
      (lambda_handler env event s3 accountId rand).1
        = .error "Error validating environment params") := by
  have herr : validateEnv env = .error "Error validating environment params" := by
    cases heq : validateEnv env with
    | ok ev =>
      obtain ⟨h1, h2, h3, h4, h5, h6, h7⟩ := validateEnv_ok_fields env ev heq
      rcases h with h | h | h | h | h | h | h <;> simp_all
    | error s =>
      rw [validateEnv_error_msg env s heq]
  constructor
  · cases hr : dlookup event "run_id" with
    | none => simp [lambda_handler, hr]
    | some v => simp [lambda_handler, hr, herr]
  · intro v hv
    simp [lambda_handler, hv, herr]

/-- Witness for env_validation_failure_blocks_side_effects: with bucket_name
absent and a run id present, the handler issues no external call and fails
with the environment validation error. -/
theorem env_validation_failure_blocks_side_effects_witness :
    (lambda_handler ⟨none, some "c", some "f", some "p", some "s", some "q",
      some "r"⟩ [("run_id", JVal.str "1")] (fun _ _ => none) "a" 0).2 = [] ∧
    (lambda_handler ⟨none, some "c", some "f", some "p", some "s", some "q",
      some "r"⟩ [("run_id", JVal.str "1")] (fun _ _ => none) "a" 0).1
      = .error "Error validating environment params" :=
  ⟨(env_validation_failure_blocks_side_effects _ _ _ _ _ (Or.inl rfl)).1,
   (env_validation_failure_blocks_side_effects _ _ _ _ _ (Or.inl rfl)).2 _ rfl⟩

/-- C6 counterexample: the fully successful end-to-end invocation starts a
workflow execution (one start call appears in the trace) yet requests no
queue whatsoever from the queueing collaborator, so no result queue named
from the run id is provisioned before the execution is started. -/
theorem dispatch_without_queue_counterexample :
    ((lambda_handler mockEnv mockEvent mockS3 "123456789012" 1234).2.filter
      isCreateQueue) = [] ∧
    ((lambda_handler mockEnv mockEvent mockS3 "123456789012" 1234).2.filter
      isStartExecution).length = 1 :=
  ⟨rfl, rfl⟩

/-- C6 amended: create_queue, when called, requests a queue named from the
run id as run_id followed by -results.fifo, but lambda_handler never
invokes it — across all invocations no queue-creation request occurs in the
handler's external-call trace, so no result queue is provisioned before the
execution is started. -/
theorem queue_request_never_issued :
    (∀ rid : String,
      create_queue_request rid = ExtCall.createQueue (rid ++ "-results.fifo")) ∧
    (∀ (env : Environ) (event : Doc) (s3 : String → String → Option Doc)
      (accountId : String) (rand : Nat),
      ((lambda_handler env event s3 accountId rand).2.filter isCreateQueue) = []) := by
  refine ⟨fun _ => rfl, ?_⟩
  intro env event s3 accountId rand
  simp only [lambda_handler]
  repeat' split
  all_goals simp [isCreateQueue]

/-- C3 counterexample: on the end-to-end input (survey BMISG, period 201809,
run id 01021, checkpoint 1, stored location base, file_names ingest f.csv)
the handler succeeds, but the dispatched payload carries location
base/01021/ and ingest base/01021/f.csv — the path scope is built from the
raw run id seed captured before survey namespacing, not from BMISG-01021 as
the claim states. -/
theorem run_scope_counterexample :
    exceptIsOk (lambda_handler mockEnv mockEvent mockS3 "123456789012" 1234).1
      = true ∧
    dlookup (handlerDoc (lambda_handler mockEnv mockEvent mockS3
      "123456789012" 1234)) "location" = some (JVal.str "base/01021/") ∧
    fileNameEntry (handlerDoc (lambda_handler mockEnv mockEvent mockS3
      "123456789012" 1234)) "ingest" = some (JVal.str "base/01021/f.csv") ∧
    ((("base/01021/" : String) == "base/BMISG-01021/") = false) ∧
    ((("base/01021/f.csv" : String) == "base/BMISG-01021/f.csv") = false) :=
  ⟨rfl, rfl, rfl, rfl, rfl⟩

/-- C3 amended: on the end-to-end input the dispatched payload has location
rewritten to base/01021/ and ingest to base/01021/f.csv — the path scope
uses the raw seed 01021 captured into folder_id before namespacing — while
the survey-namespaced identifier BMISG-01021 is used for the payload's
run_id field and for the execution name BMISG-01021-1234; the namespaced id
is computed once but is not the identifier the path scope is built from. -/
theorem run_scope_amended :
    (lambda_handler mockEnv mockEvent mockS3 "123456789012" 1234).1
      = .ok ⟨mockPayload, "BMISG-01021-1234", "mock-arnES-BMISG-Results"⟩ ∧
    dlookup mockPayload "location" = some (JVal.str "base/01021/") ∧
    fileNameEntry mockPayload "ingest" = some (JVal.str "base/01021/f.csv") ∧
    dlookup mockPayload "run_id" = some (JVal.str "BMISG-01021") :=
  ⟨rfl, rfl, rfl, rfl⟩

/-- C7: at most one workflow execution is started per invocation, and on
success exactly one is started, carrying the serialized merged document as
its payload and an execution name composed of the survey-namespaced run id
followed by a dash and the drawn random suffix. -/
theorem single_execution_dispatch (env : Environ) (event : Doc)
    (s3 : String → String → Option Doc) (accountId : String) (rand : Nat) :
    ((lambda_handler env event s3 accountId rand).2.filter
      isStartExecution).length ≤ 1 ∧
    (∀ out tr, lambda_handler env event s3 accountId rand = (.ok out, tr) →
      tr.filter isStartExecution
        = [ExtCall.startExecution out.arn out.execName
            (serializeJVal (JVal.obj out.payloadDoc))] ∧
      ∃ (seed survey : String) (ev : EnvVars),
        validateEnv env = .ok ev ∧
        dlookup event "run_id" = some (JVal.str seed) ∧
        dlookup event ev.payload_reference_name = some (JVal.str survey) ∧
        out.execName = survey ++ "-" ++ seed ++ "-" ++ toString rand) := by
  constructor
  · simp only [lambda_handler]
    repeat' split
    all_goals simp [isStartExecution]
  · intro out tr h
    simp only [lambda_handler] at h
    repeat' split at h
    all_goals simp only [Prod.mk.injEq, Except.ok.injEq, reduceCtorEq,
      false_and] at h
    obtain ⟨h1, h2⟩ := h
    subst h2
    subst h1
    exact ⟨rfl, _, _, _, by assumption, by assumption, by assumption, rfl⟩

/-- A minimal environment for exercising the dispatch path: empty path and
suffix strings, payload reference survey. -/
def wEnv : Environ :=
  ⟨some "b", some "", some "", some "survey", some "a", some "", some ""⟩

/-- A minimal valid invocation event. -/
def wEvent : Doc :=
  [("checkpoint", .str "c"), ("period", .str "p"),
   ("run_id", .str "1"), ("survey", .str "S")]

/-- A minimal stored document with an empty file_names table. -/
def wStored : Doc := [("location", .str "L"), ("file_names", .obj [])]

/-- Object-store oracle that always returns the minimal stored document. -/
def wS3 : String → String → Option Doc := fun _ _ => some wStored

/-- The payload the handler assembles from the minimal inputs. -/
def wPayload : Doc :=
  [("location", .str "L/1/"), ("file_names", .obj []),
   ("checkpoint", .str "c"), ("period", .str "p"),
   ("run_id", .str "S-1"), ("survey", .str "S"),
   ("final_output_location", .str "L/0-latest/disclosure_out")]

/-- The success output of the handler on the minimal inputs. -/
def wOut : HandlerOutput := ⟨wPayload, "S-1-7", "aS"⟩

/-- The external-call trace of the handler on the minimal inputs. -/
def wTrace : List ExtCall :=
  [.s3Read "b" "S", .getCallerIdentity,
   .startExecution "aS" "S-1-7" (serializeJVal (.obj wPayload))]

/-- Witness for single_execution_dispatch: on the minimal inputs the handler
succeeds, its trace holds exactly one start call carrying the serialized
payload, and the execution name is S-1-7, the namespaced run id S-1 followed
by the random suffix 7. -/
theorem single_execution_dispatch_witness :
    ((lambda_handler wEnv wEvent wS3 "acc" 7).2.filter
      isStartExecution).length ≤ 1 ∧
    (wTrace.filter isStartExecution
      = [ExtCall.startExecution wOut.arn wOut.execName
          (serializeJVal (JVal.obj wOut.payloadDoc))] ∧
     ∃ (seed survey : String) (ev : EnvVars),
        validateEnv wEnv = .ok ev ∧
        dlookup wEvent "run_id" = some (JVal.str seed) ∧
        dlookup wEvent ev.payload_reference_name = some (JVal.str survey) ∧
        wOut.execName = survey ++ "-" ++ seed ++ "-" ++ toString 7) :=
  ⟨(single_execution_dispatch wEnv wEvent wS3 "acc" 7).1,
   (single_execution_dispatch wEnv wEvent wS3 "acc" 7).2 wOut wTrace rfl⟩

end ConfigLoader
